import Mathlib

/-!
Shallow embedding of the inbound-request half of the MaidSafe routing service
(src/maidsafe/routing/service.cc): the four handlers Ping, Connect, FindNodes and
ConnectSuccess, together with the payload messages they exchange.  The external
collaborators the handlers call (routing-table admission checks, the rudp
transport) are modelled as oracle functions carried in an environment record,
and every observable outbound call is recorded in an effect trace.  Protobuf
byte strings are modelled abstractly: a serialized payload is the payload value
itself, so ParseFromString succeeds exactly on a payload of the right shape.
-/

namespace MaidsafeRouting

/-- Node identifier (a 512-bit id in the source, modelled as a natural number;
the all-zero id plays the role of the empty id). -/
abbrev NodeId := Nat

/-- Modelled from the spec: NodeId emptiness (maidsafe/common NodeId is not among
the visible sources); a NodeId is empty when it is all-zero or uninitialised. -/
def NodeId.Empty (n : NodeId) : Bool := n == 0

/-- Modelled from the spec: NodeId validity; empty NodeIds are invalid as peer
identities. -/
def NodeId.IsValid (n : NodeId) : Bool := !(NodeId.Empty n)

/-- A UDP endpoint; an address of 0 models the unspecified boost address. -/
structure Endpoint where
  addr : Nat
  port : Nat
deriving DecidableEq, Repr

/-- boost endpoint address().is_unspecified(). -/
def Endpoint.is_unspecified (e : Endpoint) : Bool := e.addr == 0

/-- rudp::EndpointPair with its local and its advertised (public) endpoint. -/
structure EndpointPair where
  local_ep : Endpoint
  ext_ep : Endpoint
deriving DecidableEq, Repr

/-- rudp::NatType as far as the service observes it. -/
inductive NatType where
  | kUnknown
  | kSymmetric
  | kOther
deriving DecidableEq, Repr

/-- The contact block of ConnectRequest/ConnectResponse. -/
structure Contact where
  node_id : NodeId
  connection_id : NodeId
  public_endpoint : Endpoint
  private_endpoint : Endpoint
  nat_type : NatType
deriving DecidableEq, Repr

/-- The payloads carried in Message.data.  A raw payload stands for bytes that
parse as none of the protobuf sub-messages. -/
inductive Payload where
  | raw (bytes : Nat)
  | pingRequest (ping : Bool) (timestamp : Nat)
  | pingResponse (pong : Bool) (original_request : Payload)
      (original_signature : Nat) (timestamp : Nat)
  | connectRequest (contact : Contact)
  | connectResponse (answer : Bool) (contact : Option Contact)
      (original_request : Payload) (original_signature : Nat) (timestamp : Nat)
  | findNodesRequest (num_nodes_requested : Nat) (target_node : NodeId)
  | findNodesResponse (nodes : List NodeId) (original_request : Payload)
      (original_signature : Nat) (timestamp : Nat)
  | connectSuccess (node_id : NodeId) (connection_id : NodeId) (requestor : Bool)
  | connectSuccessAck (node_id : NodeId) (connection_id : NodeId)
      (requestor : Bool) (close_ids : List NodeId) (client_node : Bool)
deriving DecidableEq, Repr

/-- The protobuf::Message envelope (the fields service.cc reads or writes). -/
structure Message where
  source_id : Option NodeId
  destination_id : Option NodeId
  data : List Payload
  signature : Nat
  request : Bool
  direct : Bool
  client_node : Bool
  replication : Nat
  hops_to_live : Nat
  route_history : List Nat
deriving DecidableEq, Repr

/-- protobuf Message::Clear(): every field back to its default. -/
def clearedMessage : Message :=
  { source_id := none
    destination_id := none
    data := []
    signature := 0
    request := false
    direct := false
    client_node := false
    replication := 0
    hops_to_live := 0
    route_history := [] }

/-- message.data(0).  The handlers read the first data entry; a missing entry is
modelled as an unparseable payload, so every handler takes its parse-failure
path on an empty data list. -/
def Message.data0 (m : Message) : Payload := m.data.headD (Payload.raw 0)

/-- PingRequest::ParseFromString on the first data entry. -/
def parsePingRequest : Payload → Option (Bool × Nat)
  | Payload.pingRequest ping timestamp => some (ping, timestamp)
  | _ => none

/-- ConnectRequest::ParseFromString on the first data entry. -/
def parseConnectRequest : Payload → Option Contact
  | Payload.connectRequest contact => some contact
  | _ => none

/-- FindNodesRequest::ParseFromString on the first data entry. -/
def parseFindNodesRequest : Payload → Option (Nat × NodeId)
  | Payload.findNodesRequest num target => some (num, target)
  | _ => none

/-- ConnectSuccess::ParseFromString on the first data entry. -/
def parseConnectSuccess : Payload → Option (NodeId × NodeId × Bool)
  | Payload.connectSuccess nid cid requestor => some (nid, cid, requestor)
  | _ => none

/-- The slice of NodeInfo the service handlers populate. -/
structure NodeInfo where
  node_id : NodeId
  connection_id : NodeId
deriving DecidableEq, Repr

/-- The routing table state visible to the service: the local identity and
connection id, the client-mode flag, the table contents and the pending set. -/
structure RoutingTable where
  identity : NodeId
  kConnectionId : NodeId
  client_mode : Bool
  nodes : List NodeId
  pending : List NodeInfo
deriving DecidableEq, Repr

/-- CloserToTarget as a total order: XOR distance to the target, ties broken by
the raw order of the ids. -/
def closerToTarget (a b target : NodeId) : Bool :=
  decide (Nat.xor a target < Nat.xor b target ∨
    (Nat.xor a target = Nat.xor b target ∧ a ≤ b))

/-- Insertion step of the closeness sort. -/
def insertByCloseness (target x : NodeId) : List NodeId → List NodeId
  | [] => [x]
  | y :: ys =>
      if closerToTarget x y target then x :: y :: ys
      else y :: insertByCloseness target x ys

/-- Insertion sort by closeness to the target. -/
def sortByCloseness (target : NodeId) : List NodeId → List NodeId
  | [] => []
  | x :: xs => insertByCloseness target x (sortByCloseness target xs)

/-- Modelled from the spec: RoutingTable::GetClosestNodes (routing_table.cc is not
among the visible sources).  Deterministic XOR-ordered closest-count query,
excluding the local id, ties broken by the raw order of the ids. -/
def RoutingTable.GetClosestNodes (rt : RoutingTable) (target : NodeId)
    (count : Nat) : List NodeId :=
  (sortByCloseness target (rt.nodes.filter (fun n => n != rt.identity))).take count

/-- Modelled from the spec: RoutingTable::AddPendingNode (routing_table.cc is not
among the visible sources); the pending-set add is a set, so duplicate adds are
idempotent no-ops. -/
def RoutingTable.AddPendingNode (rt : RoutingTable) (peer : NodeInfo) :
    RoutingTable :=
  if rt.pending.contains peer then rt
  else { rt with pending := rt.pending ++ [peer] }

/-- rudp::kSuccess. -/
def rudp.kSuccess : Int := 0

/-- The external collaborators of the service, as oracles: the admission checks
of the two tables, the Nth-closest query, the transport calls, GetTimeStamp and
the global Parameters. -/
structure Env where
  checkNodeRT : NodeInfo → Bool
  checkNodeNRT : NodeInfo → NodeId → Bool
  getNthClosestNodeId : NodeId → Nat → NodeId
  getAvailableEndpoint : NodeId → EndpointPair → Int × EndpointPair × NatType
  addToRudp : NodeId → NodeId → NodeId → NodeId → EndpointPair → Bool → Bool → Int
  timestamp : Nat
  hops_to_live : Nat
  closest_nodes_size : Nat

/-- The observable outbound calls a handler makes. -/
inductive Effect where
  | checkNode (client : Bool) (peer : NodeInfo)
  | getAvailableEndpoint (peer_connection_id : NodeId)
      (peer_endpoint_pair : EndpointPair)
  | rudpAdd (this_node_id this_connection_id peer_id peer_connection_id : NodeId)
      (peer_endpoint_pair : EndpointPair) (requestor : Bool) (client_mode : Bool)
  | sendToDirect (msg : Message) (peer_id : NodeId) (peer_connection_id : NodeId)
  | addPendingNode (peer : NodeInfo)
deriving DecidableEq, Repr

/-- The outcome of one handler invocation: the mutated envelope, the table state
after the call and the trace of outbound calls. -/
structure ServiceResult where
  message : Message
  table : RoutingTable
  effects : List Effect
deriving DecidableEq, Repr

/-- Modelled from the spec: rpcs::ConnectSuccessAcknoledgement (rpcs.cc is not
among the visible sources; the source name retains its spelling).  Pure
constructor for a direct point-to-point request envelope whose payload carries
the given node id, connection id, requestor flag, close-id hint list and client
flag.  The TTL initialisation of the factory is not observable in the visible
source and is left at 0. -/
def rpcs.ConnectSuccessAcknoledgement (peer_id self_node_id self_connection_id : NodeId)
    (requestor : Bool) (close_ids : List NodeId) (client_node : Bool) : Message :=
  { source_id := some self_node_id
    destination_id := some peer_id
    data := [Payload.connectSuccessAck self_node_id self_connection_id requestor
               close_ids client_node]
    signature := 0
    request := true
    direct := true
    client_node := client_node
    replication := 1
    hops_to_live := 0
    route_history := [] }

/-- The shared response finalisation of Connect (service.cc lines 205-218) and
FindNodes (lines 253-268): clear route_history, replace data with the response
payload, direct point-to-point single-copy non-request envelope with a fresh
TTL, destination set to the inbound source when one is present and cleared
otherwise, source set to the local identity. -/
def finalizeResponse (message : Message) (payload : Payload) (rt : RoutingTable)
    (env : Env) : Message :=
  { message with
    route_history := []
    data := [payload]
    direct := true
    replication := 1
    client_node := rt.client_mode
    request := false
    hops_to_live := env.hops_to_live
    destination_id := message.source_id
    source_id := some rt.identity }

/-- Service::Ping (service.cc lines 56-82). -/
def Service.Ping (rt : RoutingTable) (env : Env) (message : Message) :
    ServiceResult :=
  if message.destination_id ≠ some rt.identity then
    { message := clearedMessage, table := rt, effects := [] }
  else
    match parsePingRequest message.data0 with
    | none => { message := message, table := rt, effects := [] }
    | some _ =>
        { message :=
            { message with
              request := false
              route_history := []
              data := [Payload.pingResponse true message.data0 message.signature
                         env.timestamp]
              destination_id := some (message.source_id.getD 0)
              source_id := some rt.identity
              hops_to_live := env.hops_to_live }
          table := rt
          effects := [] }

/-- Service::Connect (service.cc lines 84-219). -/
def Service.Connect (rt : RoutingTable) (env : Env) (message : Message) :
    ServiceResult :=
  if message.destination_id ≠ some rt.identity then
    { message := clearedMessage, table := rt, effects := [] }
  else
    match parseConnectRequest message.data0 with
    | none => { message := clearedMessage, table := rt, effects := [] }
    | some contact =>
        let peer_node : NodeInfo :=
          { node_id := contact.node_id, connection_id := contact.connection_id }
        let peer_endpoint_pair : EndpointPair :=
          { local_ep := contact.private_endpoint, ext_ep := contact.public_endpoint }
        if peer_endpoint_pair.ext_ep.is_unspecified &&
            peer_endpoint_pair.local_ep.is_unspecified then
          { message := clearedMessage, table := rt, effects := [] }
        else
          let check_node_succeeded : Bool :=
            if message.client_node then
              env.checkNodeNRT peer_node
                (env.getNthClosestNodeId rt.identity env.closest_nodes_size)
            else
              env.checkNodeRT peer_node
          let checkEffect := Effect.checkNode message.client_node peer_node
          if check_node_succeeded then
            let gae := env.getAvailableEndpoint peer_node.connection_id
              peer_endpoint_pair
            let gaeEffect := Effect.getAvailableEndpoint peer_node.connection_id
              peer_endpoint_pair
            if gae.1 ≠ rudp.kSuccess then
              { message := clearedMessage, table := rt
                effects := [checkEffect, gaeEffect] }
            else
              let add_result := env.addToRudp rt.identity rt.kConnectionId
                peer_node.node_id peer_node.connection_id peer_endpoint_pair
                false rt.client_mode
              let addEffect := Effect.rudpAdd rt.identity rt.kConnectionId
                peer_node.node_id peer_node.connection_id peer_endpoint_pair
                false rt.client_mode
              let connect_response : Payload :=
                if add_result = rudp.kSuccess then
                  Payload.connectResponse true
                    (some { node_id := rt.identity
                            connection_id := rt.kConnectionId
                            public_endpoint := gae.2.1.ext_ep
                            private_endpoint := gae.2.1.local_ep
                            nat_type := gae.2.2 })
                    message.data0 message.signature env.timestamp
                else
                  Payload.connectResponse false none message.data0
                    message.signature env.timestamp
              { message := finalizeResponse message connect_response rt env
                table := rt
                effects := [checkEffect, gaeEffect, addEffect] }
          else
            { message :=
                finalizeResponse message
                  (Payload.connectResponse false none message.data0
                    message.signature env.timestamp) rt env
              table := rt
              effects := [checkEffect] }

/-- Service::FindNodes (service.cc lines 221-269).  The requested count is
truncated to 16 bits by the static_cast to uint16_t at line 241. -/
def Service.FindNodes (rt : RoutingTable) (env : Env) (message : Message) :
    ServiceResult :=
  match parseFindNodesRequest message.data0 with
  | none => { message := clearedMessage, table := rt, effects := [] }
  | some (num_nodes_requested, target_node) =>
      if num_nodes_requested == 0 || NodeId.Empty target_node ||
          !(NodeId.IsValid target_node) then
        { message := clearedMessage, table := rt, effects := [] }
      else
        let nodes := rt.GetClosestNodes target_node
          ((num_nodes_requested - 1) % 65536)
        let found_nodes := Payload.findNodesResponse (rt.identity :: nodes)
          message.data0 message.signature env.timestamp
        { message := finalizeResponse message found_nodes rt env
          table := rt
          effects := [] }

/-- Service::ConnectSuccess (service.cc lines 271-315), inlining the two helpers
ConnectSuccessFromRequester (AddPendingNode) and ConnectSuccessFromResponder
(direct ConnectSuccessAcknoledgement with a freshly constructed empty close-id
list, the source's const empty vector). -/
def Service.ConnectSuccess (rt : RoutingTable) (env : Env) (message : Message) :
    ServiceResult :=
  match parseConnectSuccess message.data0 with
  | none => { message := clearedMessage, table := rt, effects := [] }
  | some (nid, cid, requestor) =>
      let peer : NodeInfo := { node_id := nid, connection_id := cid }
      if NodeId.Empty peer.node_id || NodeId.Empty peer.connection_id then
        { message := message, table := rt, effects := [] }
      else if requestor then
        { message := clearedMessage
          table := rt.AddPendingNode peer
          effects := [Effect.addPendingNode peer] }
      else
        let close_ids : List NodeId := []
        let connect_success_ack := rpcs.ConnectSuccessAcknoledgement peer.node_id
          rt.identity rt.kConnectionId true close_ids rt.client_mode
        { message := clearedMessage
          table := rt
          effects := [Effect.sendToDirect connect_success_ack peer.node_id
                        peer.connection_id] }

/-! Concrete fixtures used by witnesses and counterexamples. -/

/-- A concrete routing-table state: identity 100, connection id 101, server
mode, table contents {1, 3, 7, 15, 31}. -/
def rt0 : RoutingTable :=
  { identity := 100
    kConnectionId := 101
    client_mode := false
    nodes := [1, 3, 7, 15, 31]
    pending := [] }

/-- A concrete environment whose oracles all succeed. -/
def env0 : Env :=
  { checkNodeRT := fun _ => true
    checkNodeNRT := fun _ _ => true
    getNthClosestNodeId := fun _ _ => 31
    getAvailableEndpoint := fun _ _ =>
      (0, { local_ep := { addr := 5, port := 6 }
            ext_ep := { addr := 7, port := 8 } }, NatType.kUnknown)
    addToRudp := fun _ _ _ _ _ _ _ => 0
    timestamp := 1234
    hops_to_live := 50
    closest_nodes_size := 8 }

/-- A concrete connect-request contact with a specified public endpoint. -/
def contactC1 : Contact :=
  { node_id := 7
    connection_id := 8
    public_endpoint := { addr := 9, port := 1 }
    private_endpoint := { addr := 0, port := 0 }
    nat_type := NatType.kUnknown }

/-- A concrete inbound ConnectRequest envelope addressed to the local node. -/
def msgC1 : Message :=
  { source_id := some 42
    destination_id := some 100
    data := [Payload.connectRequest contactC1]
    signature := 77
    request := true
    direct := false
    client_node := false
    replication := 0
    hops_to_live := 9
    route_history := [] }

/-- A concrete inbound PingRequest envelope addressed to the local node. -/
def msgC4 : Message :=
  { msgC1 with data := [Payload.pingRequest true 55] }

/-- A concrete valid ConnectSuccess with requestor = false. -/
def msgC5 : Message :=
  { msgC1 with data := [Payload.connectSuccess 7 8 false] }

/-- A concrete envelope addressed to the local node whose first data entry does
not parse as a PingRequest. -/
def msgC7 : Message :=
  { msgC1 with data := [Payload.raw 5] }

/-- A concrete parseable ConnectSuccess whose node_id is empty. -/
def msgC8 : Message :=
  { msgC1 with data := [Payload.connectSuccess 0 8 true] }

/-- C4: Service::Ping on a message for the local node whose first data entry
parses as a PingRequest mutates the envelope into a reply whose only payload is
PingResponse(pong = true, original_request = the request bytes,
original_signature = the inbound signature, timestamp), with destination_id set
to the inbound source_id, source_id set to the local identity, data and
route_history cleared and refilled with only the response, request = false and
hops_to_live reset to the TTL parameter. -/
theorem C4_ping_response (rt : RoutingTable) (env : Env) (message : Message)
    (ping : Bool) (ts : Nat) (src : NodeId)
    (hdest : message.destination_id = some rt.identity)
    (hdata : message.data0 = Payload.pingRequest ping ts)
    (hsrc : message.source_id = some src) :
    Service.Ping rt env message =
      { message :=
          { message with
            request := false
            route_history := []
            data := [Payload.pingResponse true message.data0 message.signature
                       env.timestamp]
            destination_id := some src
            source_id := some rt.identity
            hops_to_live := env.hops_to_live }
        table := rt
        effects := [] } := by
  unfold Service.Ping
  rw [hdata, hdest, hsrc]
  simp [parsePingRequest]

/-- C4 witness: the hypotheses hold at the concrete ping request and the
theorem applies there. -/
theorem C4_ping_response_witness :
    msgC4.destination_id = some rt0.identity ∧
    msgC4.data0 = Payload.pingRequest true 55 ∧
    msgC4.source_id = some 42 ∧
    Service.Ping rt0 env0 msgC4 =
      { message :=
          { msgC4 with
            request := false
            route_history := []
            data := [Payload.pingResponse true msgC4.data0 msgC4.signature
                       env0.timestamp]
            destination_id := some 42
            source_id := some rt0.identity
            hops_to_live := env0.hops_to_live }
        table := rt0
        effects := [] } :=
  ⟨by decide, by decide, by decide,
    C4_ping_response rt0 env0 msgC4 true 55 42 (by decide) (by decide) (by decide)⟩

/-- C5: evaluated at a concrete valid ConnectSuccess with requestor = false, the
handler clears the envelope and sends a ConnectSuccessAcknoledgement directly to
the peer, but the acknowledgement's close-id list is empty even though the
responder's table holds close nodes (the source passes a const empty vector,
flagged by its own comment as missing the closer ids). -/
theorem C5_ack_carries_no_close_ids :
    Service.ConnectSuccess rt0 env0 msgC5 =
      { message := clearedMessage
        table := rt0
        effects := [Effect.sendToDirect
          (rpcs.ConnectSuccessAcknoledgement 7 rt0.identity rt0.kConnectionId
            true [] rt0.client_mode) 7 8] } ∧
    rt0.nodes ≠ [] := by decide

/-- C6: Service::Connect on a parseable ConnectRequest addressed to the local
node whose public and private endpoints are both unspecified clears the
envelope, leaves the table unchanged and performs no admission check and no
transport call. -/
theorem C6_connect_unspecified_endpoints (rt : RoutingTable) (env : Env)
    (message : Message) (contact : Contact)
    (hdest : message.destination_id = some rt.identity)
    (hdata : message.data0 = Payload.connectRequest contact)
    (hpub : contact.public_endpoint.is_unspecified = true)
    (hpriv : contact.private_endpoint.is_unspecified = true) :
    Service.Connect rt env message =
      { message := clearedMessage, table := rt, effects := [] } := by
  unfold Service.Connect
  rw [hdata, hdest]
  simp [parseConnectRequest, hpub, hpriv]

/-- A concrete ConnectRequest contact with both endpoints unspecified. -/
def contactC6 : Contact :=
  { node_id := 7
    connection_id := 8
    public_endpoint := { addr := 0, port := 0 }
    private_endpoint := { addr := 0, port := 0 }
    nat_type := NatType.kUnknown }

/-- The envelope carrying contactC6, addressed to the local node. -/
def msgC6 : Message :=
  { msgC1 with data := [Payload.connectRequest contactC6] }

/-- C6 witness: the hypotheses hold at the concrete endpoint-less request and
the theorem applies there. -/
theorem C6_connect_unspecified_endpoints_witness :
    msgC6.destination_id = some rt0.identity ∧
    msgC6.data0 = Payload.connectRequest contactC6 ∧
    contactC6.public_endpoint.is_unspecified = true ∧
    contactC6.private_endpoint.is_unspecified = true ∧
    Service.Connect rt0 env0 msgC6 =
      { message := clearedMessage, table := rt0, effects := [] } :=
  ⟨by decide, by decide, by decide, by decide,
    C6_connect_unspecified_endpoints rt0 env0 msgC6 contactC6 (by decide)
      (by decide) (by decide) (by decide)⟩

/-- C7 counterexample: at a concrete message addressed to the local node whose
first data entry does not parse as a PingRequest, Service::Ping returns with the
envelope left exactly as it was, which is not the cleared envelope; the claim
that the envelope ends cleared is false. -/
theorem C7_ping_parse_failure_not_cleared :
    Service.Ping rt0 env0 msgC7 =
      { message := msgC7, table := rt0, effects := [] } ∧
    msgC7 ≠ clearedMessage := by decide

/-- C7 amended: Service::Ping on a message addressed to the local node whose
first data entry does not parse as a PingRequest returns leaving the envelope
unchanged (it is not cleared), writes no response fields, leaves the table
unchanged and makes no outbound call. -/
theorem C7_ping_parse_failure (rt : RoutingTable) (env : Env) (message : Message)
    (hdest : message.destination_id = some rt.identity)
    (hparse : parsePingRequest message.data0 = none) :
    Service.Ping rt env message =
      { message := message, table := rt, effects := [] } := by
  unfold Service.Ping
  rw [hdest, hparse]
  simp

/-- C7 witness: the hypotheses hold at the concrete unparseable message and the
theorem applies there. -/
theorem C7_ping_parse_failure_witness :
    msgC7.destination_id = some rt0.identity ∧
    parsePingRequest msgC7.data0 = none ∧
    Service.Ping rt0 env0 msgC7 =
      { message := msgC7, table := rt0, effects := [] } :=
  ⟨by decide, by decide,
    C7_ping_parse_failure rt0 env0 msgC7 (by decide) (by decide)⟩

/-- C8 counterexample: at a concrete parseable ConnectSuccess whose node_id is
empty, the handler returns with the envelope left exactly as it was, which is
not the cleared envelope; the claim that the envelope ends cleared is false. -/
theorem C8_connect_success_empty_id_not_cleared :
    Service.ConnectSuccess rt0 env0 msgC8 =
      { message := msgC8, table := rt0, effects := [] } ∧
    msgC8 ≠ clearedMessage := by decide

/-- C8 amended: Service::ConnectSuccess on a parseable ConnectSuccess whose
node_id or connection_id is empty returns leaving the envelope unchanged (it is
not cleared), does not call AddPendingNode and sends no acknowledgement. -/
theorem C8_connect_success_empty_id (rt : RoutingTable) (env : Env)
    (message : Message) (nid cid : NodeId) (requestor : Bool)
    (hdata : message.data0 = Payload.connectSuccess nid cid requestor)
    (hempty : (NodeId.Empty nid || NodeId.Empty cid) = true) :
    Service.ConnectSuccess rt env message =
      { message := message, table := rt, effects := [] } := by
  unfold Service.ConnectSuccess
  rw [hdata]
  simp [parseConnectSuccess, hempty]

/-- C8 witness: the hypotheses hold at the concrete empty-id ConnectSuccess and
the theorem applies there. -/
theorem C8_connect_success_empty_id_witness :
    msgC8.data0 = Payload.connectSuccess 0 8 true ∧
    (NodeId.Empty 0 || NodeId.Empty 8) = true ∧
    Service.ConnectSuccess rt0 env0 msgC8 =
      { message := msgC8, table := rt0, effects := [] } :=
  ⟨by decide, by decide,
    C8_connect_success_empty_id rt0 env0 msgC8 0 8 true (by decide) (by decide)⟩

/-- C9: Service::Ping and Service::FindNodes leave the routing state unchanged
and make no outbound call on any input: they are pure with respect to the node
directory and the transport. -/
theorem C9_ping_find_nodes_pure (rt : RoutingTable) (env : Env)
    (message : Message) :
    (Service.Ping rt env message).table = rt ∧
    (Service.Ping rt env message).effects = [] ∧
    (Service.FindNodes rt env message).table = rt ∧
    (Service.FindNodes rt env message).effects = [] := by
  refine ⟨?_, ?_, ?_, ?_⟩
  · unfold Service.Ping; split <;> (try split) <;> rfl
  · unfold Service.Ping; split <;> (try split) <;> rfl
  · unfold Service.FindNodes; split <;> (try split) <;> rfl
  · unfold Service.FindNodes; split <;> (try split) <;> rfl

/-- C3 amended: Service::FindNodes on a parseable FindNodesRequest with
0 < num_nodes_requested and num_nodes_requested at most 65536 (the count is
truncated to 16 bits by the source's cast) and a non-empty valid target node
produces a response whose node list is the local identity first, followed by
GetClosestNodes(target, num_nodes_requested - 1) in that order. -/
theorem C3_find_nodes (rt : RoutingTable) (env : Env) (message : Message)
    (num : Nat) (target : NodeId)
    (hdata : message.data0 = Payload.findNodesRequest num target)
    (hnum : 0 < num) (hnum2 : num ≤ 65536) (htarget : target ≠ 0) :
    (Service.FindNodes rt env message).message.data =
      [Payload.findNodesResponse
        (rt.identity :: rt.GetClosestNodes target (num - 1))
        message.data0 message.signature env.timestamp] := by
  unfold Service.FindNodes
  rw [hdata]
  have h1 : (num == 0 || NodeId.Empty target || !(NodeId.IsValid target)) = false := by
    simp [NodeId.Empty, NodeId.IsValid, htarget]
    omega
  have h2 : (num - 1) % 65536 = num - 1 := Nat.mod_eq_of_lt (by omega)
  simp [parseFindNodesRequest, h1, h2, finalizeResponse]

/-- A concrete FindNodes request for three nodes around target 1. -/
def msgC3 : Message :=
  { msgC1 with data := [Payload.findNodesRequest 3 1] }

/-- A concrete FindNodes request whose target is the all-zero (empty) id. -/
def msgC3x : Message :=
  { msgC1 with data := [Payload.findNodesRequest 3 0] }

/-- A concrete FindNodes request whose count overflows the 16-bit cast. -/
def msgC3y : Message :=
  { msgC1 with data := [Payload.findNodesRequest 65537 1] }

/-- C3 counterexample: the claim's example FindNodes(target = 0, num = 3) on the
table {1, 3, 7, 15, 31} is dropped, because the all-zero target is the empty
NodeId and the handler rejects it, so the list [LocalId, 1, 3] is never
produced; moreover num_nodes_requested is truncated to 16 bits, so num = 65537
returns the local id alone instead of 65536 closest nodes. -/
theorem C3_find_nodes_example_rejected :
    Service.FindNodes rt0 env0 msgC3x =
      { message := clearedMessage, table := rt0, effects := [] } ∧
    (Service.FindNodes rt0 env0 msgC3y).message.data =
      [Payload.findNodesResponse [100] msgC3y.data0 msgC3y.signature
        env0.timestamp] := by decide

/-- C3 witness: at the concrete table {1, 3, 7, 15, 31} with local identity 100,
FindNodes(target = 1, num = 3) yields the node list [100, 1, 3]: the local id
first followed by the two closest ids. -/
theorem C3_find_nodes_witness :
    msgC3.data0 = Payload.findNodesRequest 3 1 ∧
    (0 < 3 ∧ (3 : Nat) ≤ 65536 ∧ (1 : NodeId) ≠ 0) ∧
    (Service.FindNodes rt0 env0 msgC3).message.data =
      [Payload.findNodesResponse
        (rt0.identity :: rt0.GetClosestNodes 1 (3 - 1))
        msgC3.data0 msgC3.signature env0.timestamp] ∧
    rt0.identity :: rt0.GetClosestNodes 1 (3 - 1) = [100, 1, 3] :=
  ⟨by decide, by decide,
    C3_find_nodes rt0 env0 msgC3 3 1 (by decide) (by decide) (by decide)
      (by decide),
    by decide⟩

/-- Conclusion of the C1 theorem.  With the admission check, the endpoint
acquisition and the transport add written as the oracle calls the handler makes,
the produced connect response answers true with the local contact block exactly
when all three succeed, answers false otherwise, always echoes the request
bytes, the inbound signature and a timestamp, and is finalized as a direct
single-copy non-request reply addressed to the inbound source; the reply is
suppressed (envelope cleared) exactly when the check succeeded but no endpoint
was available. -/
def connectResponsePost (rt : RoutingTable) (env : Env) (message : Message)
    (contact : Contact) (src : NodeId) : Prop :=
  let peer_node : NodeInfo :=
    { node_id := contact.node_id, connection_id := contact.connection_id }
  let pep : EndpointPair :=
    { local_ep := contact.private_endpoint, ext_ep := contact.public_endpoint }
  let check : Bool :=
    if message.client_node then
      env.checkNodeNRT peer_node
        (env.getNthClosestNodeId rt.identity env.closest_nodes_size)
    else
      env.checkNodeRT peer_node
  let gae := env.getAvailableEndpoint peer_node.connection_id pep
  let add_result := env.addToRudp rt.identity rt.kConnectionId peer_node.node_id
    peer_node.connection_id pep false rt.client_mode
  let localContact : Contact :=
    { node_id := rt.identity
      connection_id := rt.kConnectionId
      public_endpoint := gae.2.1.ext_ep
      private_endpoint := gae.2.1.local_ep
      nat_type := gae.2.2 }
  let response_payload : Payload :=
    if check = true ∧ gae.1 = rudp.kSuccess ∧ add_result = rudp.kSuccess then
      Payload.connectResponse true (some localContact) message.data0
        message.signature env.timestamp
    else
      Payload.connectResponse false none message.data0 message.signature
        env.timestamp
  let out := (Service.Connect rt env message).message
  (check = true → gae.1 ≠ rudp.kSuccess → out = clearedMessage) ∧
  (check = false ∨ gae.1 = rudp.kSuccess →
    out =
      { message with
        route_history := []
        data := [response_payload]
        direct := true
        replication := 1
        client_node := rt.client_mode
        request := false
        hops_to_live := env.hops_to_live
        destination_id := some src
        source_id := some rt.identity })

/-- C1: Service::Connect on a parseable ConnectRequest addressed to the local
node with at least one specified endpoint and a present source id: the response
sets answer = true and carries the local contact block (local node id, local
connection id, local endpoint pair, NAT type) exactly when the admission check,
GetAvailableEndpoint and the transport add all succeed; every produced response
(answer true or false) carries original_request = the request bytes,
original_signature = the inbound signature and a timestamp, and is finalized
with direct = true, replication = 1, request = false and destination_id = the
inbound source id. -/
theorem C1_connect_response (rt : RoutingTable) (env : Env) (message : Message)
    (contact : Contact) (src : NodeId)
    (hdest : message.destination_id = some rt.identity)
    (hdata : message.data0 = Payload.connectRequest contact)
    (hsrc : message.source_id = some src)
    (hep : (contact.public_endpoint.is_unspecified &&
      contact.private_endpoint.is_unspecified) = false) :
    connectResponsePost rt env message contact src := by
  unfold connectResponsePost Service.Connect
  rw [hdata, hdest]
  simp only [parseConnectRequest, hep, ne_eq, not_true_eq_false, if_false,
    Bool.false_eq_true, ite_false]
  constructor
  · intro hcheck hgae
    simp [hcheck, hgae]
  · intro hor
    rcases hor with hcheck | hgae
    · simp [hcheck, finalizeResponse, hsrc]
    · by_cases hcheck : (if message.client_node then
        env.checkNodeNRT { node_id := contact.node_id, connection_id := contact.connection_id }
          (env.getNthClosestNodeId rt.identity env.closest_nodes_size)
        else
          env.checkNodeRT { node_id := contact.node_id, connection_id := contact.connection_id }) = true
      · simp [hcheck, hgae, finalizeResponse, hsrc]
      · simp [hcheck, finalizeResponse, hsrc]

/-- C1 witness: the hypotheses hold at the concrete connect request msgC1 and
the theorem applies there. -/
theorem C1_connect_response_witness :
    msgC1.destination_id = some rt0.identity ∧
    msgC1.data0 = Payload.connectRequest contactC1 ∧
    msgC1.source_id = some 42 ∧
    (contactC1.public_endpoint.is_unspecified &&
      contactC1.private_endpoint.is_unspecified) = false ∧
    connectResponsePost rt0 env0 msgC1 contactC1 42 :=
  ⟨by decide, by decide, by decide, by decide,
    C1_connect_response rt0 env0 msgC1 contactC1 42 (by decide) (by decide)
      (by decide) (by decide)⟩

/-- Conclusion of the C10 theorem: whenever Connect or FindNodes produces a
response at all, the response envelope's destination_id equals the inbound
optional source_id, so it is cleared exactly when the inbound message carried
no source (a relayed message) and set to the source otherwise; and for the two
given well-formed requests a response is produced. -/
def relayDestinationPost (rt : RoutingTable) (env : Env) (mc mf : Message) :
    Prop :=
  ((Service.Connect rt env mc).message ≠ clearedMessage →
    (Service.Connect rt env mc).message.destination_id = mc.source_id) ∧
  ((Service.Connect rt env mc).message.request = false ∧
    (Service.Connect rt env mc).message.data ≠ []) ∧
  ((Service.FindNodes rt env mf).message ≠ clearedMessage →
    (Service.FindNodes rt env mf).message.destination_id = mf.source_id) ∧
  ((Service.FindNodes rt env mf).message.request = false ∧
    (Service.FindNodes rt env mf).message.data ≠ [])

/-- C10: Service::Connect and Service::FindNodes set the response envelope's
destination_id to the inbound source_id exactly when one is present and clear
it otherwise, and a well-formed request without a source_id (a relayed message)
still gets a response: here the Connect request is parseable, addressed to the
local node, has a specified endpoint and finds an available endpoint, and the
FindNodes request is parseable with a positive count and a valid target, so
both handlers build a response whose destination_id equals the inbound optional
source_id. -/
theorem C10_relay_destination (rt : RoutingTable) (env : Env) (mc mf : Message)
    (contact : Contact) (num : Nat) (target : NodeId)
    (hdest : mc.destination_id = some rt.identity)
    (hdatac : mc.data0 = Payload.connectRequest contact)
    (hep : (contact.public_endpoint.is_unspecified &&
      contact.private_endpoint.is_unspecified) = false)
    (hgae : (env.getAvailableEndpoint contact.connection_id
      { local_ep := contact.private_endpoint
        ext_ep := contact.public_endpoint }).1 = rudp.kSuccess)
    (hdataf : mf.data0 = Payload.findNodesRequest num target)
    (hnum : 0 < num) (htarget : target ≠ 0) :
    relayDestinationPost rt env mc mf := by
  unfold relayDestinationPost
  have hconn : (Service.Connect rt env mc).message.destination_id = mc.source_id ∧
      (Service.Connect rt env mc).message.request = false ∧
      (Service.Connect rt env mc).message.data ≠ [] := by
    unfold Service.Connect
    rw [hdatac, hdest]
    simp only [parseConnectRequest, hep, ne_eq, not_true_eq_false, if_false,
      Bool.false_eq_true, ite_false]
    by_cases hcheck : (if mc.client_node then
        env.checkNodeNRT { node_id := contact.node_id, connection_id := contact.connection_id }
          (env.getNthClosestNodeId rt.identity env.closest_nodes_size)
        else
          env.checkNodeRT { node_id := contact.node_id, connection_id := contact.connection_id }) = true
    · simp [hcheck, hgae, finalizeResponse]
    · simp [hcheck, finalizeResponse]
  have hfind : (Service.FindNodes rt env mf).message.destination_id = mf.source_id ∧
      (Service.FindNodes rt env mf).message.request = false ∧
      (Service.FindNodes rt env mf).message.data ≠ [] := by
    unfold Service.FindNodes
    rw [hdataf]
    have h1 : (num == 0 || NodeId.Empty target || !(NodeId.IsValid target)) = false := by
      simp [NodeId.Empty, NodeId.IsValid, htarget]
      omega
    simp [parseFindNodesRequest, h1, finalizeResponse]
  exact ⟨fun _ => hconn.1, ⟨hconn.2.1, hconn.2.2⟩, fun _ => hfind.1,
    ⟨hfind.2.1, hfind.2.2⟩⟩

/-- A concrete relayed (sourceless) ConnectRequest addressed to the local node. -/
def msgC10c : Message :=
  { msgC1 with source_id := none }

/-- A concrete relayed (sourceless) FindNodesRequest. -/
def msgC10f : Message :=
  { msgC1 with source_id := none, data := [Payload.findNodesRequest 2 5] }

/-- C10 witness: the hypotheses hold at concrete sourceless requests and the
theorem applies there; the produced responses have a cleared destination_id. -/
theorem C10_relay_destination_witness :
    msgC10c.destination_id = some rt0.identity ∧
    msgC10c.source_id = none ∧
    msgC10f.source_id = none ∧
    relayDestinationPost rt0 env0 msgC10c msgC10f :=
  ⟨by decide, by decide, by decide,
    C10_relay_destination rt0 env0 msgC10c msgC10f contactC1 2 5 (by decide)
      (by decide) (by decide) (by decide) (by decide) (by decide) (by decide)⟩

/-- A concrete FindNodesRequest addressed to some other node (destination 999,
local identity 100). -/
def msgC2 : Message :=
  { msgC1 with destination_id := some 999
               data := [Payload.findNodesRequest 2 5] }

/-- C2 counterexample: Service::FindNodes handles a message whose
destination_id differs from the local identity and still builds a response
(request = false, non-empty data), so it is false that every handler clears the
envelope and returns on a destination mismatch. -/
theorem C2_find_nodes_no_destination_check :
    msgC2.destination_id ≠ some rt0.identity ∧
    (Service.FindNodes rt0 env0 msgC2).message.request = false ∧
    (Service.FindNodes rt0 env0 msgC2).message.data ≠ [] := by decide

/-- Conclusion of the C2 theorem: on a destination mismatch Ping and Connect
clear the envelope and return with no table change and no outbound call, while
FindNodes and ConnectSuccess behave exactly as they would if the destination
matched: FindNodes returns the identical result and ConnectSuccess produces the
identical table and effect trace. -/
def destinationCheckPost (rt : RoutingTable) (env : Env) (message : Message) :
    Prop :=
  Service.Ping rt env message =
    { message := clearedMessage, table := rt, effects := [] } ∧
  Service.Connect rt env message =
    { message := clearedMessage, table := rt, effects := [] } ∧
  Service.FindNodes rt env message =
    Service.FindNodes rt env { message with destination_id := some rt.identity } ∧
  (Service.ConnectSuccess rt env message).table =
    (Service.ConnectSuccess rt env
      { message with destination_id := some rt.identity }).table ∧
  (Service.ConnectSuccess rt env message).effects =
    (Service.ConnectSuccess rt env
      { message with destination_id := some rt.identity }).effects

/-- C2 amended: only Service::Ping and Service::Connect compare destination_id
with the local identity and drop (clear the envelope, change no state) on a
mismatch; Service::FindNodes and Service::ConnectSuccess never inspect
destination_id and handle the message regardless of it. -/
theorem C2_destination_check (rt : RoutingTable) (env : Env) (message : Message)
    (h : message.destination_id ≠ some rt.identity) :
    destinationCheckPost rt env message := by
  unfold destinationCheckPost
  refine ⟨?_, ?_, rfl, ?_, ?_⟩
  · unfold Service.Ping; rw [if_pos h]
  · unfold Service.Connect; rw [if_pos h]
  · unfold Service.ConnectSuccess
    have hd : ({ message with destination_id := some rt.identity } : Message).data0 =
        message.data0 := rfl
    rw [hd]
    cases hp : parseConnectSuccess message.data0 with
    | none => rfl
    | some t =>
        obtain ⟨nid, cid, req⟩ := t
        by_cases he : (NodeId.Empty nid || NodeId.Empty cid) = true
        · simp [he]
        · by_cases hr : req = true
          · simp [he, hr]
          · simp [he, hr]
  · unfold Service.ConnectSuccess
    have hd : ({ message with destination_id := some rt.identity } : Message).data0 =
        message.data0 := rfl
    rw [hd]
    cases hp : parseConnectSuccess message.data0 with
    | none => rfl
    | some t =>
        obtain ⟨nid, cid, req⟩ := t
        by_cases he : (NodeId.Empty nid || NodeId.Empty cid) = true
        · simp [he]
        · by_cases hr : req = true
          · simp [he, hr]
          · simp [he, hr]

/-- C2 witness: the mismatch hypothesis holds at the concrete message msgC2 and
the theorem applies there. -/
theorem C2_destination_check_witness :
    msgC2.destination_id ≠ some rt0.identity ∧
    destinationCheckPost rt0 env0 msgC2 :=
  ⟨by decide, C2_destination_check rt0 env0 msgC2 (by decide)⟩

end MaidsafeRouting
